import Mathlib

/-!
Verification of the Axolotls typed columnar data model.

This file gives a shallow embedding of the repository's `DType` algebra,
type-promotion engine and inference engine (`src/axolotls/dtypes.py`) and of
the null-aware numeric column (`src/axolotls/numeric_column.py`), together
with theorems settling the specification's claims about them.

Python exceptions are embedded as `Except PyError`; a Python function that
returns `None` on failure and may also raise is embedded as
`Except PyError (Option _)`.
-/

namespace Ax

/-- `MetaData = ty.Dict[str, str]` from `dtypes.py`, as an ordered
association list. -/
abbrev MetaData := List (String × String)

mutual

/-- The `DType` hierarchy of `dtypes.py`: one constructor per concrete
frozen dataclass, carrying exactly the dataclass fields that participate in
structural equality (`Struct._local_py_type_id` is declared with
`compare=False` and is therefore omitted). -/
inductive DType where
  | void (nullable : Bool)
  | boolean (nullable : Bool)
  | int8 (nullable : Bool)
  | int16 (nullable : Bool)
  | int32 (nullable : Bool)
  | int64 (nullable : Bool)
  | float32 (nullable : Bool)
  | float64 (nullable : Bool)
  | string (nullable : Bool)
  | map (key_dtype item_dtype : DType) (nullable keys_sorted : Bool)
  | list (item_dtype : DType) (nullable : Bool) (fixed_size : Int)
  | struct (fields : FieldList) (nullable is_dataframe : Bool) (metadata : Option MetaData)
  | tuple (fields : DTypeList) (nullable is_dataframe : Bool) (metadata : Option MetaData)
  | anyT (nullable : Bool)
deriving DecidableEq

/-- `Field` from `dtypes.py`: `(name, dtype, metadata)`. -/
inductive Field where
  | mk (name : String) (dtype : DType) (metadata : Option MetaData)
deriving DecidableEq

/-- A list of `Field`s (the `fields` of a `Struct`). -/
inductive FieldList where
  | nil
  | cons (head : Field) (tail : FieldList)
deriving DecidableEq

/-- A list of `DType`s (the `fields` of a `Tuple`). -/
inductive DTypeList where
  | nil
  | cons (head : DType) (tail : DTypeList)
deriving DecidableEq

end

/-- Structured stand-in for the Python exceptions the embedded code can raise.
Each constructor records one concrete `raise`/`assert` site together with the
data interpolated into its message. -/
inductive PyError where
  /-- `TypeError` raised by `Struct.__post_init__`: `"nullable structs require
  each field (like {f.name}) to be nullable as well."` -/
  | nullableStructField (fieldName : String)
  /-- a failing `assert` statement (`Any.constructor`, `promote`). -/
  | assertionFailed
  /-- `ValueError` raised by `infer_dtype_from_prefix` when a fold step has no
  common dtype; the message interpolates the two conflicting dtypes. -/
  | cannotInferConflict (old next : DType)
  /-- `AssertionError("unexpected case ...")` at the end of
  `infer_dtype_from_value`. -/
  | unexpectedValue
  /-- `ValueError("NumericCollumn expects 1D values Tensor")` in
  `NumericColumn.__init__`. -/
  | not1DTensor
  /-- `ValueError("Mismatched shape for values(...) and presence(...)")` in
  `NumericColumn.__init__`. -/
  | shapeMismatch (valuesShape presenceShape : List Nat)
  /-- `RuntimeError` raised by `torch.Tensor.__bool__` when the tensor does
  not have exactly one element ("Boolean value of Tensor ... is ambiguous"). -/
  | ambiguousTensorBool (numel : Nat)
  /-- `ValueError(f"Unsupported value {other}")` in the arithmetic dunders. -/
  | unsupportedOperand
deriving DecidableEq

/-- The `name` of a `Field`. -/
def Field.name : Field → String
  | .mk n _ _ => n

/-- The `dtype` of a `Field`. -/
def Field.dtype : Field → DType
  | .mk _ d _ => d

/-- Length of a `DTypeList` (`len(t.fields)` for a `Tuple`). -/
def DTypeList.length : DTypeList → Nat
  | .nil => 0
  | .cons _ t => 1 + t.length

/-- Membership in a `FieldList`. -/
def FieldList.Mem (f : Field) : FieldList → Prop
  | .nil => False
  | .cons h t => f = h ∨ FieldList.Mem f t

instance : Membership Field FieldList := ⟨fun l f => FieldList.Mem f l⟩

/-- The `nullable` property common to every `DType` variant. -/
def DType.nullable : DType → Bool
  | .void n => n
  | .boolean n => n
  | .int8 n => n
  | .int16 n => n
  | .int32 n => n
  | .int64 n => n
  | .float32 n => n
  | .float64 n => n
  | .string n => n
  | .map _ _ n _ => n
  | .list _ n _ => n
  | .struct _ n _ _ => n
  | .tuple _ n _ _ => n
  | .anyT n => n

/-- The class-level `typecode` of each `DType` variant, as a character list
(`"n"`, `"b"`, `"c"`, `"s"`, `"i"`, `"l"`, `"f"`, `"g"`, `"u"`, `"+m"`,
`"+l"`, `"+s"`, `"+t"`, `"?"`). -/
def DType.typecode : DType → List Char
  | .void _ => ['n']
  | .boolean _ => ['b']
  | .int8 _ => ['c']
  | .int16 _ => ['s']
  | .int32 _ => ['i']
  | .int64 _ => ['l']
  | .float32 _ => ['f']
  | .float64 _ => ['g']
  | .string _ => ['u']
  | .map _ _ _ _ => ['+', 'm']
  | .list _ _ _ => ['+', 'l']
  | .struct _ _ _ _ => ['+', 's']
  | .tuple _ _ _ _ => ['+', 't']
  | .anyT _ => ['?']

/-- Python's substring test `needle in hay` on strings, used by the typecode
predicates (`t.typecode in "csilCSIL"` and the `_promotion_list` lookups). -/
def strIn (needle : List Char) : List Char → Bool
  | [] => needle.isEmpty
  | c :: t => needle.isPrefixOf (c :: t) || strIn needle t

/-- `is_void(t)`: `t.typecode == "n"`. -/
def is_void (t : DType) : Bool := t.typecode == ['n']

/-- `is_boolean(t)`: `t.typecode == "b"`. -/
def is_boolean (t : DType) : Bool := t.typecode == ['b']

/-- `is_integer(t)`: `t.typecode in "csilCSIL"`. -/
def is_integer (t : DType) : Bool := strIn t.typecode "csilCSIL".toList

/-- `is_floating(t)`: `t.typecode in "fg"`. -/
def is_floating (t : DType) : Bool := strIn t.typecode "fg".toList

/-- `is_numerical(t)`: `is_integer(t) or is_floating(t)`. -/
def is_numerical (t : DType) : Bool := is_integer t || is_floating t

/-- `is_boolean_or_numerical(t)`: `is_boolean(t) or is_numerical(t)`. -/
def is_boolean_or_numerical (t : DType) : Bool := is_boolean t || is_numerical t

/-- `is_string(t)`: `t.typecode == "u"`. -/
def is_string (t : DType) : Bool := t.typecode == ['u']

/-- `is_list(t)`: `t.typecode.startswith("+l")`. -/
def is_list (t : DType) : Bool := List.isPrefixOf ['+', 'l'] t.typecode

/-- `is_map(t)`: `t.typecode.startswith("+m")`. -/
def is_map (t : DType) : Bool := List.isPrefixOf ['+', 'm'] t.typecode

/-- `is_struct(t)`: `t.typecode.startswith("+s")`. -/
def is_struct (t : DType) : Bool := List.isPrefixOf ['+', 's'] t.typecode

/-- `is_tuple(t)`: `t.typecode.startswith("+t")`. -/
def is_tuple (t : DType) : Bool := List.isPrefixOf ['+', 't'] t.typecode

/-- `is_primitive(t)`: `t.typecode[0] != "+"`. -/
def is_primitive (t : DType) : Bool := t.typecode.head? != some '+'

/-- `is_any(t)`: `t.typecode == "?"`. -/
def is_any (t : DType) : Bool := t.typecode == ['?']

/-- The first field of the list (in order) whose dtype is not nullable, as
scanned by the loop in `Struct.__post_init__`. -/
def FieldList.firstNonNullable : FieldList → Option Field
  | .nil => none
  | .cons f t => if f.dtype.nullable then t.firstNonNullable else some f

/-- `Struct(fields, nullable, is_dataframe, metadata)` construction including
`Struct.__post_init__`, which - when the struct is nullable - raises
`TypeError` at the first field whose dtype is not itself nullable. -/
def Struct_new (fields : FieldList) (nullable is_dataframe : Bool)
    (metadata : Option MetaData) : Except PyError DType :=
  if nullable then
    match fields.firstNonNullable with
    | some f => .error (.nullableStructField f.name)
    | none => .ok (.struct fields nullable is_dataframe metadata)
  else .ok (.struct fields nullable is_dataframe metadata)

/-- `DType.with_null(nullable)`, i.e. `self.constructor(nullable)` with each
variant's own `constructor`: primitives rebuild themselves with the new flag,
`Map.constructor` drops `keys_sorted`, `List.constructor` drops `fixed_size`,
`Struct.constructor`/`Tuple.constructor` drop `is_dataframe` and `metadata`
(and `Struct` re-runs the `__post_init__` nullability check), and
`Any.constructor` has `assert nullable`. -/
def DType.with_null : DType → Bool → Except PyError DType
  | .void _, b => .ok (.void b)
  | .boolean _, b => .ok (.boolean b)
  | .int8 _, b => .ok (.int8 b)
  | .int16 _, b => .ok (.int16 b)
  | .int32 _, b => .ok (.int32 b)
  | .int64 _, b => .ok (.int64 b)
  | .float32 _, b => .ok (.float32 b)
  | .float64 _, b => .ok (.float64 b)
  | .string _, b => .ok (.string b)
  | .map k i _ _, b => .ok (.map k i b false)
  | .list i _ _, b => .ok (.list i b (-1))
  | .struct fs _ _ _, b => Struct_new fs b false none
  | .tuple fs _ _ _, b => .ok (.tuple fs b false none)
  | .anyT _, b => if b then .ok (.anyT true) else .error .assertionFailed

/-- The module-level singleton `boolean = Boolean()`. -/
def boolean : DType := .boolean false

/-- The module-level singleton `int8 = Int8()`. -/
def int8 : DType := .int8 false

/-- The module-level singleton `int16 = Int16()`. -/
def int16 : DType := .int16 false

/-- The module-level singleton `int32 = Int32()`. -/
def int32 : DType := .int32 false

/-- The module-level singleton `int64 = Int64()`. -/
def int64 : DType := .int64 false

/-- The module-level singleton `float32 = Float32()`. -/
def float32 : DType := .float32 false

/-- The module-level singleton `float64 = Float64()`. -/
def float64 : DType := .float64 false

/-- The module-level singleton `string = String()`. -/
def string : DType := .string false

/-- `_promotion_list` from `dtypes.py`. -/
def promotion_list : List (List Char × List Char × DType) :=
  [("b".toList, "b".toList, boolean),
   ("bc".toList, "bc".toList, int8),
   ("bcs".toList, "bcs".toList, int16),
   ("bcsi".toList, "bcsi".toList, int32),
   ("bcsil".toList, "bcsil".toList, int64),
   ("bcsilf".toList, "bcsilf".toList, float32),
   ("bcsilfg".toList, "bcsilfg".toList, float64)]

/-- `promote(l, r)` from `dtypes.py`: asserts both arguments are
boolean-or-numerical, returns `l.with_null(l.nullable or r.nullable)` on
identical typecodes, otherwise the first `_promotion_list` row containing
both typecodes (with OR'd nullability), and `None` when no row matches. -/
def promote (l r : DType) : Except PyError (Option DType) :=
  if !(is_boolean_or_numerical l && is_boolean_or_numerical r) then
    .error .assertionFailed
  else
    let lt := l.typecode
    let rt := r.typecode
    if lt == rt then (l.with_null (l.nullable || r.nullable)).map some
    else
      match promotion_list.find? (fun e => strIn lt e.1 && strIn rt e.2.1) with
      | some e => (e.2.2.with_null (l.nullable || r.nullable)).map some
      | none => .ok none

/-- The `fields` of a `Tuple` (attribute access `t.fields`; only read under
an `is_tuple` guard in the source). -/
def DType.tuple_fields : DType → DTypeList
  | .tuple fs _ _ _ => fs
  | _ => .nil

/-- The last two lines of `common_dtype`:
`if l.with_null() == r.with_null(): return l if l.nullable else r` followed
by `return None`, with any exception of either `with_null()` escaping
(`l.with_null()` is evaluated first). -/
def final_branch (l r : DType) : Except PyError (Option DType) :=
  match l.with_null true with
  | .error e => .error e
  | .ok lw =>
    match r.with_null true with
    | .error e => .error e
    | .ok rw =>
      if lw = rw then .ok (some (if l.nullable then l else r)) else .ok Option.none

mutual

/-- `common_dtype(l, r)` from `dtypes.py`, with its checks in source order:
void, any, string-pair, boolean-or-numerical pair, tuple pair of equal
arity, map pair, list pair, and finally the `l.with_null() == r.with_null()`
fallback returning the nullable operand.  A Python `None` result is
`.ok none`; an exception escaping the call is `.error`. -/
def common_dtype (l r : DType) : Except PyError (Option DType) :=
  if is_void l then (r.with_null true).map some
  else if is_void r then (l.with_null true).map some
  else if is_any l then .ok (some r)
  else if is_any r then .ok (some l)
  else if is_string l && is_string r then .ok (some (.string (l.nullable || r.nullable)))
  else if is_boolean_or_numerical l && is_boolean_or_numerical r then promote l r
  else if is_tuple l && is_tuple r && l.tuple_fields.length == r.tuple_fields.length then
    match l, r with
    | .tuple fs nl _ _, .tuple gs nr _ _ =>
      (match common_fields fs gs with
       | .error e => .error e
       | .ok Option.none => .ok Option.none
       | .ok (some res) =>
         (DType.with_null (.tuple res false false Option.none) (nl || nr)).map some)
    | _, _ => .ok Option.none
  else if is_map l && is_map r then
    match l, r with
    | .map kl il nl _, .map kr ir nr _ =>
      (match common_dtype kl kr with
       | .error e => .error e
       | .ok k =>
         match common_dtype il ir with
         | .error e => .error e
         | .ok i =>
           match k, i with
           | some k, some i =>
             (DType.with_null (.map k i false false) (nl || nr)).map some
           | _, _ => .ok Option.none)
    | _, _ => .ok Option.none
  else if is_list l && is_list r then
    match l, r with
    | .list il nl _, .list ir nr _ =>
      (match common_dtype il ir with
       | .error e => .error e
       | .ok (some k) => (DType.with_null (.list k false (-1)) (nl || nr)).map some
       | .ok Option.none => .ok Option.none)
    | _, _ => .ok Option.none
  else final_branch l r

/-- The field loop of the tuple branch of `common_dtype`: zips the two field
lists, joins position by position, returns `None` at the first position with
no common dtype, and lets any exception of a recursive join escape. -/
def common_fields : DTypeList → DTypeList → Except PyError (Option DTypeList)
  | .cons x xs, .cons y ys =>
    (match common_dtype x y with
     | .error e => .error e
     | .ok Option.none => .ok Option.none
     | .ok (some m) =>
       match common_fields xs ys with
       | .error e => .error e
       | .ok Option.none => .ok Option.none
       | .ok (some res) => .ok (some (.cons m res)))
  | _, _ => .ok (some .nil)

end

/-! ## Inference engine (`infer_dtype_from_value` / `infer_dtype_from_prefix`) -/

/-- Python sample values, one constructor per arm of the ordered
`isinstance` chain in `infer_dtype_from_value`: `None`; `bool`/`np.bool8`;
`np.int8`; `np.int16`; `np.int32`; `int`/`np.integer`; `np.float64`;
`float`/`np.float32`; `str`/`np.str_`; `list`; `dict` (as its parallel key
and value sequences); `tuple`; and any other object (which no arm matches). -/
inductive PyValue where
  | none
  | pybool (b : Bool)
  | npint8 (n : Int)
  | npint16 (n : Int)
  | npint32 (n : Int)
  | pyint (n : Int)
  | npfloat64
  | pyfloat
  | pystr (s : String)
  | pylist (items : List PyValue)
  | pydict (keys values : List PyValue)
  | pytuple (items : List PyValue)
  | unclassified

/-- `PREFIX_LENGTH = 5` from `dtypes.py`. -/
def PREFIX_LENGTH : Nat := 5

/-- `sizeOf` does not grow under `List.take` (for the termination measure of
the inference functions, which sample `value[:PREFIX_LENGTH]`). -/
theorem sizeOf_take_le {α : Type} [SizeOf α] : ∀ (n : Nat) (xs : List α),
    sizeOf (xs.take n) ≤ sizeOf xs := by
  intro n xs
  induction xs generalizing n with
  | nil => simp [List.take]
  | cons a as ih =>
    cases n with
    | zero => simp [List.take]; omega
    | succ m => simpa [List.take] using ih m

mutual

/-- `infer_dtype_from_value(value)` from `dtypes.py`: the ordered
classification of a sample value, recursing on the first `PREFIX_LENGTH`
elements of lists and on the first `PREFIX_LENGTH` keys and values of
dicts, and on every element of tuples; any unclassified value raises
`AssertionError`. -/
def infer_dtype_from_value : PyValue → Except PyError DType
  | .none => .ok (.void true)
  | .pybool _ => .ok boolean
  | .npint8 _ => .ok int8
  | .npint16 _ => .ok int16
  | .npint32 _ => .ok int32
  | .pyint _ => .ok int64
  | .npfloat64 => .ok float64
  | .pyfloat => .ok float32
  | .pystr _ => .ok string
  | .pylist items => do
    let dtype ← infer_dtype_from_prefix (items.take PREFIX_LENGTH)
    pure (.list dtype false (-1))
  | .pydict keys values => do
    let key_dtype ← infer_dtype_from_prefix (keys.take PREFIX_LENGTH)
    let items_dtype ← infer_dtype_from_prefix (values.take PREFIX_LENGTH)
    pure (.map key_dtype items_dtype false false)
  | .pytuple items => do
    let dtypes ← infer_value_list items
    pure (.tuple dtypes false false none)
  | .unclassified => .error .unexpectedValue
termination_by v => 3 * sizeOf v
decreasing_by
  all_goals simp [PREFIX_LENGTH]
  · have h := sizeOf_take_le (α := PyValue) 5 items; omega
  · have h := sizeOf_take_le (α := PyValue) 5 keys; omega
  · have h := sizeOf_take_le (α := PyValue) 5 values; omega
  · omega

/-- The element loop of the tuple arm of `infer_dtype_from_value`. -/
def infer_value_list : List PyValue → Except PyError DTypeList
  | [] => .ok .nil
  | v :: vs => do
    let d ← infer_dtype_from_value v
    let ds ← infer_value_list vs
    pure (.cons d ds)
termination_by vs => 3 * sizeOf vs + 2
decreasing_by
  all_goals simp
  all_goals omega

/-- One iteration of the fold loop in `infer_dtype_from_prefix`: infer the
next element's dtype, join it with the accumulated dtype, and raise
`ValueError` - naming the two conflicting dtypes - if the join is `None`. -/
def infer_fold_step (dtype : DType) (p : PyValue) : Except PyError DType := do
  let next_dtype ← infer_dtype_from_value p
  match ← common_dtype dtype next_dtype with
  | some d => pure d
  | none => .error (.cannotInferConflict dtype next_dtype)
termination_by 3 * sizeOf p + 1
decreasing_by
  simp
  try omega

/-- The fold loop of `infer_dtype_from_prefix` over `prefix[1:]`. -/
def infer_prefix_go (dtype : DType) : List PyValue → Except PyError DType
  | [] => .ok dtype
  | p :: ps => do
    let d ← infer_fold_step dtype p
    infer_prefix_go d ps
termination_by ps => 3 * sizeOf ps + 2
decreasing_by
  all_goals simp
  all_goals omega

/-- `infer_dtype_from_prefix(prefix)` from `dtypes.py`: `Any()` for the
empty prefix, otherwise the first element's inferred dtype folded with
`common_dtype` across the remaining elements' inferred dtypes. -/
def infer_dtype_from_prefix : List PyValue → Except PyError DType
  | [] => .ok (.anyT true)
  | p :: ps => do
    let dtype ← infer_dtype_from_value p
    infer_prefix_go dtype ps
termination_by ps => 3 * sizeOf ps + 2
decreasing_by
  all_goals simp
  all_goals omega

end

/-! ## Nullable numeric column (`numeric_column.py`) -/

/-- The element dtypes of the backing `torch.Tensor` buffers that a
`NumericColumn` can be built over. -/
inductive TorchDtype where
  | bool
  | int8
  | int16
  | int32
  | int64
  | float32
  | float64
deriving DecidableEq

/-- A numeric `torch.Tensor`: element dtype, shape, and flattened element
data.  Element values are modelled as integers; every claim proved below is
agnostic in the element values, so the claims about binary operations
quantify over the elementwise combining function. -/
structure Tensor where
  dtype : TorchDtype
  shape : List Nat
  data : List Int
deriving DecidableEq

/-- A `torch.BoolTensor` used as a validity (presence) mask. -/
structure BoolTensor where
  shape : List Nat
  data : List Bool
deriving DecidableEq

/-- Modelled from the spec: `dt._dtype_from_pytorch_dtype(dtype, nullable)`
is called by `NumericColumn.__init__` but its definition is not under
`src/` (`dtypes.py` as shipped has no such function).  Per the spec -
"dtype derived automatically from the buffer's element type and mask
presence" and "`dtype.nullable` is true iff `presence` is set" - it maps
the buffer element type to the matching primitive `DType` carrying the
given nullability. -/
def dtype_from_pytorch_dtype : TorchDtype → Bool → DType
  | .bool, n => .boolean n
  | .int8, n => .int8 n
  | .int16, n => .int16 n
  | .int32, n => .int32 n
  | .int64, n => .int64 n
  | .float32, n => .float32 n
  | .float64, n => .float64 n

/-- The state of a `NumericColumn`: the dtype stored by
`ColumnBase.__init__`, the values buffer, and the optional presence mask. -/
structure NumericColumn where
  dtype : DType
  values : Tensor
  presence : Option BoolTensor
deriving DecidableEq

/-- `NumericColumn.__init__(values, presence)`: first derives the dtype via
`dt._dtype_from_pytorch_dtype(values.dtype, presence is not None)`, then
validates that `values` is one-dimensional and - when a presence mask is
supplied - that its shape equals the values shape; each violation raises
`ValueError`. -/
def NumericColumn.new (values : Tensor) (presence : Option BoolTensor) :
    Except PyError NumericColumn :=
  let dtype := dtype_from_pytorch_dtype values.dtype presence.isSome
  if values.shape.length != 1 then .error .not1DTensor
  else
    match presence with
    | some p =>
      if values.shape != p.shape then .error (.shapeMismatch values.shape p.shape)
      else .ok ⟨dtype, values, some p⟩
    | Option.none => .ok ⟨dtype, values, Option.none⟩

/-- `torch.Tensor.__bool__`, as invoked by the truthiness test that the
Python expression `presence1 or presence2` performs on `presence1`: the
single element of a one-element tensor, and `RuntimeError` ("Boolean value
of Tensor ... is ambiguous") for any other element count. -/
def BoolTensor.pybool (p : BoolTensor) : Except PyError Bool :=
  match p.data with
  | [x] => .ok x
  | _ => .error (.ambiguousTensorBool p.data.length)

/-- `presence1 & presence2`: elementwise AND of two masks (the source only
reaches this with two equal-shape masks). -/
def BoolTensor.and (p1 p2 : BoolTensor) : BoolTensor :=
  ⟨p1.shape, List.zipWith Bool.and p1.data p2.data⟩

/-- `NumericColumn._presence_for_binary_op(presence1, presence2)`: the AND
of the two masks when both are present, and otherwise the Python truthy-or
`presence1 or presence2`, which calls `bool(presence1)` when `presence1` is
a tensor and therefore raises unless that tensor has exactly one element. -/
def presence_for_binary_op (presence1 presence2 : Option BoolTensor) :
    Except PyError (Option BoolTensor) :=
  match presence1, presence2 with
  | some p1, some p2 => .ok (some (p1.and p2))
  | _, _ =>
    match presence1 with
    | Option.none => .ok presence2
    | some p1 => do
      let b ← p1.pybool
      if b then pure (some p1) else pure presence2

/-- The column-with-column shape shared by `NumericColumn.__add__` and
`NumericColumn.__truediv__`: combine the value buffers elementwise, combine
the masks with `_presence_for_binary_op`, and construct a new column.
`g` is the elementwise tensor operation (`+` or `/`). -/
def NumericColumn.binary_op_column (g : Tensor → Tensor → Tensor)
    (c other : NumericColumn) : Except PyError NumericColumn := do
  let v := g c.values other.values
  let p ← presence_for_binary_op c.presence other.presence
  NumericColumn.new v p

/-- The column-with-scalar shape shared by `NumericColumn.__add__` and
`NumericColumn.__truediv__` (and their reflected variants): combine the
value buffer with the scalar and pass `self.presence` through verbatim. -/
def NumericColumn.binary_op_scalar (g : Tensor → Int → Tensor)
    (c : NumericColumn) (x : Int) : Except PyError NumericColumn :=
  NumericColumn.new (g c.values x) c.presence

/-- External collaborator: torch's result-type promotion for two operand
buffers, which for the element dtypes modelled here is the higher dtype in
the numeric order. -/
def torch_result_type (a b : TorchDtype) : TorchDtype :=
  let rank : TorchDtype → Nat := fun t =>
    match t with
    | .bool => 0
    | .int8 => 1
    | .int16 => 2
    | .int32 => 3
    | .int64 => 4
    | .float32 => 5
    | .float64 => 6
  if rank b ≤ rank a then a else b

/-- External collaborator: `self.values + other.values` on two equal-shape
1-D tensors. -/
def Tensor.add (t1 t2 : Tensor) : Tensor :=
  ⟨torch_result_type t1.dtype t2.dtype, t1.shape,
    List.zipWith (fun a b => a + b) t1.data t2.data⟩

/-- External collaborator: `self.values + other` for a scalar `other`. -/
def Tensor.add_scalar (t : Tensor) (x : Int) : Tensor :=
  ⟨t.dtype, t.shape, t.data.map (fun a => a + x)⟩

/-- `NumericColumn.__add__` with a `NumericColumn` operand. -/
def NumericColumn.add_column : NumericColumn → NumericColumn → Except PyError NumericColumn :=
  NumericColumn.binary_op_column Tensor.add

/-- `NumericColumn.__add__` with an `int`/`float` scalar operand. -/
def NumericColumn.add_scalar (c : NumericColumn) (x : Int) : Except PyError NumericColumn :=
  NumericColumn.binary_op_scalar Tensor.add_scalar c x

/-- `values[~presence] = val` performed on the clone inside `fill_null`:
positions whose mask entry is `False` receive `val`. -/
def masked_fill (data : List Int) (presence : List Bool) (val : Int) : List Int :=
  List.zipWith (fun x keep => if keep then x else val) data presence

/-- `NumericColumn.fill_null(val)`: the identity on an unmasked column;
otherwise writes `val` at the masked positions of a clone of the values
buffer and builds a new column with no mask.  The source clones the buffer
before writing, so the receiver is never mutated and the method is embedded
as a pure function of the column. -/
def NumericColumn.fill_null (c : NumericColumn) (val : Int) :
    Except PyError NumericColumn :=
  match c.presence with
  | Option.none => .ok c
  | some p =>
    let values : Tensor := ⟨c.values.dtype, c.values.shape, masked_fill c.values.data p.data val⟩
    NumericColumn.new values Option.none

/-! ## Helper instances and characterizations -/

instance {ε α : Type} [DecidableEq ε] [DecidableEq α] : DecidableEq (Except ε α) :=
  fun x y =>
  match x, y with
  | .error e, .error f =>
    match decEq e f with
    | .isTrue h => .isTrue (h ▸ rfl)
    | .isFalse h => .isFalse (fun hh => Except.noConfusion hh (fun he => h he))
  | .ok a, .ok b =>
    match decEq a b with
    | .isTrue h => .isTrue (h ▸ rfl)
    | .isFalse h => .isFalse (fun hh => Except.noConfusion hh (fun he => h he))
  | .error _, .ok _ => .isFalse (fun hh => Except.noConfusion hh)
  | .ok _, .error _ => .isFalse (fun hh => Except.noConfusion hh)

/-- `is_void` holds exactly on the `Void` variant. -/
@[simp] theorem is_void_eq (t : DType) :
    is_void t = (match t with | .void _ => true | _ => false) := by
  cases t <;> rfl

/-- `is_any` holds exactly on the `Any` variant. -/
@[simp] theorem is_any_eq (t : DType) :
    is_any t = (match t with | .anyT _ => true | _ => false) := by
  cases t <;> rfl

/-- `is_string` holds exactly on the `String` variant. -/
@[simp] theorem is_string_eq (t : DType) :
    is_string t = (match t with | .string _ => true | _ => false) := by
  cases t <;> rfl

/-- `is_boolean_or_numerical` holds exactly on the boolean, integer and
floating variants. -/
@[simp] theorem is_boolean_or_numerical_eq (t : DType) :
    is_boolean_or_numerical t =
      (match t with
       | .boolean _ | .int8 _ | .int16 _ | .int32 _
       | .int64 _ | .float32 _ | .float64 _ => true
       | _ => false) := by
  cases t <;> rfl

/-- `is_tuple` holds exactly on the `Tuple` variant. -/
@[simp] theorem is_tuple_eq (t : DType) :
    is_tuple t = (match t with | .tuple _ _ _ _ => true | _ => false) := by
  cases t <;> rfl

/-- `is_map` holds exactly on the `Map` variant. -/
@[simp] theorem is_map_eq (t : DType) :
    is_map t = (match t with | .map _ _ _ _ => true | _ => false) := by
  cases t <;> rfl

/-- `is_list` holds exactly on the `List` variant. -/
@[simp] theorem is_list_eq (t : DType) :
    is_list t = (match t with | .list _ _ _ => true | _ => false) := by
  cases t <;> rfl

/-- `is_struct` holds exactly on the `Struct` variant. -/
@[simp] theorem is_struct_eq (t : DType) :
    is_struct t = (match t with | .struct _ _ _ _ => true | _ => false) := by
  cases t <;> rfl

/-- `is_primitive` holds exactly off the composite variants. -/
@[simp] theorem is_primitive_eq (t : DType) :
    is_primitive t =
      (match t with
       | .map _ _ _ _ | .list _ _ _ | .struct _ _ _ _ | .tuple _ _ _ _ => false
       | _ => true) := by
  cases t <;> rfl

/-- Membership in the empty field list is false. -/
@[simp] theorem FieldList.mem_nil (f : Field) : (f ∈ FieldList.nil) = False := rfl

/-- Membership in a `cons` field list. -/
@[simp] theorem FieldList.mem_cons (f h : Field) (t : FieldList) :
    (f ∈ FieldList.cons h t) = (f = h ∨ f ∈ t) := rfl

/-! ## C2: `common_dtype` with `Void` -/

/-- C2: for every `DType` `x` (primitive or composite, `Struct`, `List`,
`Map` and `Tuple` included), `common_dtype(Void(b), x)` yields exactly what
`x.with_null(True)` yields - the successfully rebuilt nullable `x`, or the
very exception `x.with_null(True)` raises - and symmetrically for
`common_dtype(x, Void(b))`. -/
theorem c2_common_dtype_void_yields_with_null (x : DType) (b : Bool) :
    common_dtype (.void b) x = (x.with_null true).map some ∧
    common_dtype x (.void b) = (x.with_null true).map some := by
  constructor
  · cases x <;> rfl
  · cases x <;> rfl

/-! ## C3: the boolean/numeric promotion total order -/

/-- The position of a boolean-or-numeric `DType` in the promotion order
`boolean < int8 < int16 < int32 < int64 < float32 < float64` stated by the
spec (other variants are mapped past the end of the order). -/
def promo_rank : DType → Nat
  | .boolean _ => 0
  | .int8 _ => 1
  | .int16 _ => 2
  | .int32 _ => 3
  | .int64 _ => 4
  | .float32 _ => 5
  | .float64 _ => 6
  | _ => 7

/-- The boolean-or-numeric `DType` at a given position of the promotion
order, carrying the given nullability. -/
def promo_type (r : Nat) (n : Bool) : DType :=
  match r with
  | 0 => .boolean n
  | 1 => .int8 n
  | 2 => .int16 n
  | 3 => .int32 n
  | 4 => .int64 n
  | 5 => .float32 n
  | _ => .float64 n

/-- C3: for boolean-or-numeric operands, `common_dtype` returns the higher
of the two operands in the fixed order `boolean < int8 < int16 < int32 <
int64 < float32 < float64` with OR'd nullability - which for identical type
tags is that same type with OR'd nullability - and in particular
`common_dtype(int8, int32) == int32`, `common_dtype(int64, float32) ==
float32` and `common_dtype(boolean, boolean) == boolean`. -/
theorem c3_promotion_total_order :
    (∀ l r : DType, is_boolean_or_numerical l = true →
      is_boolean_or_numerical r = true →
      common_dtype l r =
        .ok (some (promo_type (max (promo_rank l) (promo_rank r))
          (l.nullable || r.nullable)))) ∧
    common_dtype int8 int32 = .ok (some int32) ∧
    common_dtype int64 float32 = .ok (some float32) ∧
    common_dtype boolean boolean = .ok (some boolean) := by
  refine ⟨?_, rfl, rfl, rfl⟩
  intro l r hl hr
  cases l <;> cases r <;> first | rfl | simp_all

/-- Witness for C3 at `l = int64(nullable=True)`, `r = float32`. -/
theorem c3_promotion_total_order_witness :
    common_dtype (.int64 true) (.float32 false) = .ok (some (.float32 true)) :=
  c3_promotion_total_order.1 (.int64 true) (.float32 false) rfl rfl

/-! ## C6: the nullable-struct invariant -/

/-- A field list containing a non-nullable field has a first non-nullable
field (the one `Struct.__post_init__` raises at). -/
theorem firstNonNullable_of_mem (fields : FieldList)
    (h : ∃ f, f ∈ fields ∧ f.dtype.nullable = false) :
    ∃ g, fields.firstNonNullable = some g := by
  match fields with
  | .nil =>
    obtain ⟨f, hf, _⟩ := h
    exact hf.elim
  | .cons hd t =>
    obtain ⟨f, hf, hnn⟩ := h
    rcases hf with hf | hf
    · subst hf
      by_cases hh : f.dtype.nullable
      · exact absurd hnn (by simp [hh])
      · exact ⟨f, by simp [FieldList.firstNonNullable, hh]⟩
    · by_cases hh : hd.dtype.nullable
      · obtain ⟨g, hg⟩ := firstNonNullable_of_mem t ⟨f, hf, hnn⟩
        exact ⟨g, by simp [FieldList.firstNonNullable, hh, hg]⟩
      · exact ⟨hd, by simp [FieldList.firstNonNullable, hh]⟩

/-- A field list whose fields all have nullable dtypes has no first
non-nullable field. -/
theorem firstNonNullable_of_all (fields : FieldList)
    (h : ∀ f, f ∈ fields → f.dtype.nullable = true) :
    fields.firstNonNullable = Option.none := by
  match fields with
  | .nil => rfl
  | .cons hd t =>
    have hh : hd.dtype.nullable = true := h hd (by simp)
    have ht := firstNonNullable_of_all t (fun f hf => h f (by simp [hf]))
    simp [FieldList.firstNonNullable, hh, ht]

/-- C6: constructing a `Struct` with `nullable=True` fails with the
`__post_init__` `TypeError` whenever some field's dtype is non-nullable,
succeeds when every field's dtype is nullable, and `with_null(True)` on any
`Struct` routes through exactly this checked construction. -/
theorem c6_struct_nullability_invariant :
    (∀ (fields : FieldList) (d : Bool) (m : Option MetaData) (f : Field),
      f ∈ fields → f.dtype.nullable = false →
      ∃ name, Struct_new fields true d m = .error (.nullableStructField name)) ∧
    (∀ (fields : FieldList) (d : Bool) (m : Option MetaData),
      (∀ f, f ∈ fields → f.dtype.nullable = true) →
      Struct_new fields true d m = .ok (.struct fields true d m)) ∧
    (∀ (fields : FieldList) (n d : Bool) (m : Option MetaData),
      DType.with_null (.struct fields n d m) true =
        Struct_new fields true false Option.none) := by
  refine ⟨?_, ?_, ?_⟩
  · intro fields d m f hf hnn
    obtain ⟨g, hg⟩ := firstNonNullable_of_mem fields ⟨f, hf, hnn⟩
    exact ⟨g.name, by simp [Struct_new, hg]⟩
  · intro fields d m hall
    simp [Struct_new, firstNonNullable_of_all fields hall]
  · intro fields n d m
    rfl

/-- Witness for C6: a nullable struct with the single non-nullable field
`a : int8` fails, and one with the single nullable field `b : int8?`
succeeds. -/
theorem c6_struct_nullability_invariant_witness :
    (∃ name,
      Struct_new (.cons (.mk "a" (.int8 false) Option.none) .nil) true false
        Option.none = .error (.nullableStructField name)) ∧
    Struct_new (.cons (.mk "b" (.int8 true) Option.none) .nil) true false
        Option.none =
      .ok (.struct (.cons (.mk "b" (.int8 true) Option.none) .nil) true false
        Option.none) := by
  constructor
  · exact c6_struct_nullability_invariant.1 _ false Option.none
      (.mk "a" (.int8 false) Option.none) (by simp) rfl
  · refine c6_struct_nullability_invariant.2.1 _ false Option.none ?_
    rintro f (rfl | hf)
    · rfl
    · exact hf.elim

/-! ## C7: the `with_null` round trip on primitives -/

/-- C7 counterexample: the claim quantifies over every primitive `DType`
including the default-constructed `Void()` (which is nullable) and `Any`;
`Void(True).with_null(True).with_null(False)` is `Void(False)`, not the
original `Void(True)`, and on `Any` the round trip does not even return -
`Any.constructor` hits `assert nullable`. -/
theorem c7_roundtrip_counterexample :
    ((DType.void true).with_null true).bind (fun u => u.with_null false) =
      .ok (.void false) ∧
    (Except.ok (DType.void false) : Except PyError DType) ≠ .ok (.void true) ∧
    ((DType.anyT true).with_null true).bind (fun u => u.with_null false) =
      .error .assertionFailed := by
  refine ⟨rfl, ?_, rfl⟩
  decide

/-- C7 as amended: for every non-nullable primitive `DType` other than
`Any` - that is, void, boolean, the integer and float widths, and string
with `nullable=False` - `t.with_null(True).with_null(False) == t` and
`t.with_null(True) != t`.  (Nullable primitives round-trip to their
non-nullable variant instead, and `Any` asserts on `with_null(False)`.) -/
theorem c7_roundtrip_amended (t : DType) (hp : is_primitive t = true)
    (ha : is_any t = false) (hn : t.nullable = false) :
    (t.with_null true).bind (fun u => u.with_null false) = .ok t ∧
    t.with_null true ≠ .ok t := by
  cases t <;> simp_all [DType.nullable] <;> decide

/-- Witness for C7 (amended) at `t = int8`. -/
theorem c7_roundtrip_amended_witness :
    ((DType.int8 false).with_null true).bind (fun u => u.with_null false) =
      .ok (.int8 false) ∧
    (DType.int8 false).with_null true ≠ .ok (.int8 false) :=
  c7_roundtrip_amended (.int8 false) rfl rfl rfl

/-! ## C10: `common_dtype` normalizes `fixed_size` and `keys_sorted` -/

/-- `common_dtype` on two `List` dtypes, unfolded one step: join the item
dtypes and rebuild via `List(k).with_null(...)`, which resets `fixed_size`
to `-1`. -/
theorem common_dtype_list_branch (il ir : DType) (nl nr : Bool) (fl fr : Int) :
    common_dtype (.list il nl fl) (.list ir nr fr) =
      (match common_dtype il ir with
       | .error e => .error e
       | .ok (some k) => .ok (some (.list k (nl || nr) (-1)))
       | .ok Option.none => .ok Option.none) := rfl

/-- `common_dtype` on two `Map` dtypes, unfolded one step: join the key and
item dtypes and rebuild via `Map(k, i).with_null(...)`, which resets
`keys_sorted` to `False`. -/
theorem common_dtype_map_branch (kl il kr ir : DType) (nl nr sl sr : Bool) :
    common_dtype (.map kl il nl sl) (.map kr ir nr sr) =
      (match common_dtype kl kr with
       | .error e => .error e
       | .ok k =>
         match common_dtype il ir with
         | .error e => .error e
         | .ok i =>
           match k, i with
           | some k, some i => .ok (some (.map k i (nl || nr) false))
           | _, _ => .ok Option.none) := rfl

/-- C10: joining two `List` dtypes with a joinable item type always yields
`fixed_size = -1`, joining two `Map` dtypes with joinable key and item
types always yields `keys_sorted = False` - both even when the inputs
agree on those flags - and consequently `common_dtype(t, t)` never yields
`t` back for a fixed-size `List` or a `keys_sorted` `Map` `t`. -/
theorem c10_common_dtype_normalizes_container_flags :
    (∀ (a b : DType) (na nb : Bool) (fa fb : Int) (k : DType),
      common_dtype a b = .ok (some k) →
      common_dtype (.list a na fa) (.list b nb fb) =
        .ok (some (.list k (na || nb) (-1)))) ∧
    (∀ (ka kb ia ib : DType) (na nb sa sb : Bool) (k i : DType),
      common_dtype ka kb = .ok (some k) → common_dtype ia ib = .ok (some i) →
      common_dtype (.map ka ia na sa) (.map kb ib nb sb) =
        .ok (some (.map k i (na || nb) false))) ∧
    (∀ (a : DType) (n : Bool) (fa : Int), 0 ≤ fa →
      common_dtype (.list a n fa) (.list a n fa) ≠ .ok (some (.list a n fa))) ∧
    (∀ (k i : DType) (n : Bool),
      common_dtype (.map k i n true) (.map k i n true) ≠
        .ok (some (.map k i n true))) := by
  refine ⟨?_, ?_, ?_, ?_⟩
  · intro a b na nb fa fb k h
    rw [common_dtype_list_branch, h]
  · intro ka kb ia ib na nb sa sb k i hk hi
    rw [common_dtype_map_branch, hk, hi]
  · intro a n fa hfa
    rw [common_dtype_list_branch]
    rcases h : common_dtype a a with e | o
    · simp
    · rcases o with _ | k
      · simp
      · simp only []
        intro hq
        rw [Except.ok.injEq, Option.some.injEq] at hq
        rw [DType.list.injEq] at hq
        omega
  · intro k i n
    rw [common_dtype_map_branch]
    rcases hk : common_dtype k k with e | ok
    · simp
    · rcases hi : common_dtype i i with e | oi
      · simp
      · rcases ok with _ | k2 <;> rcases oi with _ | i2 <;> simp

/-- Witness for C10: the fixed-size list `List(int64, fixed_size=3)` joined
with itself loses its fixed size, and the sorted map
`Map(int64, string, keys_sorted=True)` joined with itself loses
`keys_sorted`. -/
theorem c10_witness :
    common_dtype (.list (.int64 false) false 3) (.list (.int64 false) false 3) =
      .ok (some (.list (.int64 false) false (-1))) ∧
    common_dtype (.list (.int64 false) false 3) (.list (.int64 false) false 3) ≠
      .ok (some (.list (.int64 false) false 3)) ∧
    common_dtype (.map (.int64 false) (.string false) false true)
        (.map (.int64 false) (.string false) false true) ≠
      .ok (some (.map (.int64 false) (.string false) false true)) :=
  ⟨c10_common_dtype_normalizes_container_flags.1 _ _ false false 3 3 _ rfl,
   c10_common_dtype_normalizes_container_flags.2.2.1 _ false 3 (by decide),
   c10_common_dtype_normalizes_container_flags.2.2.2 _ _ false⟩

/-! ## C9: column construction -/

/-- The dtype derived for a column is nullable exactly when a mask was
supplied. -/
theorem dtype_from_pytorch_dtype_nullable (t : TorchDtype) (b : Bool) :
    (dtype_from_pytorch_dtype t b).nullable = b := by
  cases t <;> rfl

/-- C9: a successfully constructed column's dtype is derived from the
buffer's element type with nullability exactly when a mask is supplied
(buffer and mask stored as given); a non-one-dimensional buffer fails with
the 1-D `ValueError`; and a supplied mask whose shape differs from the
buffer's fails with the mismatched-shape `ValueError`. -/
theorem c9_column_construction :
    (∀ (values : Tensor) (presence : Option BoolTensor) (col : NumericColumn),
      NumericColumn.new values presence = .ok col →
      col.dtype = dtype_from_pytorch_dtype values.dtype presence.isSome ∧
      col.dtype.nullable = presence.isSome ∧
      col.values = values ∧ col.presence = presence) ∧
    (∀ (values : Tensor) (presence : Option BoolTensor),
      values.shape.length ≠ 1 →
      NumericColumn.new values presence = .error .not1DTensor) ∧
    (∀ (values : Tensor) (p : BoolTensor),
      values.shape.length = 1 → values.shape ≠ p.shape →
      NumericColumn.new values (some p) =
        .error (.shapeMismatch values.shape p.shape)) := by
  refine ⟨?_, ?_, ?_⟩
  · intro values presence col h
    unfold NumericColumn.new at h
    by_cases h1 : values.shape.length = 1
    · simp only [h1, bne_self_eq_false, Bool.false_eq_true, if_false] at h
      cases presence with
      | none =>
        rw [Except.ok.injEq] at h
        subst h
        exact ⟨rfl, dtype_from_pytorch_dtype_nullable _ _, rfl, rfl⟩
      | some p =>
        by_cases h2 : values.shape = p.shape
        · simp only [h2, bne_self_eq_false, Bool.false_eq_true, if_false] at h
          rw [Except.ok.injEq] at h
          subst h
          exact ⟨rfl, dtype_from_pytorch_dtype_nullable _ _, rfl, rfl⟩
        · have : (values.shape != p.shape) = true := by
            simpa using h2
          simp only [this, if_true] at h
          exact absurd h (by simp)
    · have : (values.shape.length != 1) = true := by simpa using h1
      simp only [this, if_true] at h
      exact absurd h (by simp)
  · intro values presence h1
    have : (values.shape.length != 1) = true := by simpa using h1
    simp [NumericColumn.new, this]
  · intro values p h1 h2
    have e1 : (values.shape.length != 1) = false := by simpa using h1
    have e2 : (values.shape != p.shape) = true := by simpa using h2
    simp [NumericColumn.new, e1, e2]

/-- Witness for C9: a length-2 int64 buffer with a matching mask
constructs a column of dtype `Int64(nullable=True)`; a 2-D buffer fails;
a mask of the wrong shape fails. -/
theorem c9_column_construction_witness :
    (NumericColumn.new ⟨.int64, [2], [1, 2]⟩ (some ⟨[2], [true, false]⟩) =
      .ok ⟨.int64 true, ⟨.int64, [2], [1, 2]⟩, some ⟨[2], [true, false]⟩⟩ ∧
      (DType.int64 true).nullable = (some (⟨[2], [true, false]⟩ : BoolTensor)).isSome) ∧
    NumericColumn.new ⟨.int64, [2, 2], [1, 2, 3, 4]⟩ Option.none =
      .error .not1DTensor ∧
    NumericColumn.new ⟨.int64, [2], [1, 2]⟩ (some ⟨[3], [true, false, true]⟩) =
      .error (.shapeMismatch [2] [3]) := by
  refine ⟨⟨rfl, ?_⟩, ?_, ?_⟩
  · exact (c9_column_construction.1 ⟨.int64, [2], [1, 2]⟩
      (some ⟨[2], [true, false]⟩) _ rfl).2.1
  · exact c9_column_construction.2.1 ⟨.int64, [2, 2], [1, 2, 3, 4]⟩ Option.none
      (by decide)
  · exact c9_column_construction.2.2 ⟨.int64, [2], [1, 2]⟩ ⟨[3], [true, false, true]⟩
      rfl (by decide)

/-! ## C5: `fill_null` -/

/-- Pointwise reading of `masked_fill`: positions whose mask entry is
`True` keep the original value, positions whose mask entry is `False`
receive the fill value. -/
theorem masked_fill_getElem (data : List Int) (mask : List Bool) (val : Int)
    (i : Nat) (x : Int) (y : Bool) (hx : data[i]? = some x)
    (hy : mask[i]? = some y) :
    (masked_fill data mask val)[i]? = some (if y then x else val) := by
  unfold masked_fill
  rw [List.getElem?_zipWith']
  rw [hx, hy]
  rfl

/-- C5: `fill_null` on an unmasked column returns the column itself; on a
masked (well-formed, 1-D) column it returns a fresh column that has no
mask, whose dtype is re-derived non-nullable, whose buffer keeps the
original's element dtype and shape, and whose data holds the original
value at every valid position and the fill value at every masked
position.  The receiver is a pure function argument (the source writes
only to a clone), so its own mask, dtype and values are untouched. -/
theorem c5_fill_null :
    (∀ (c : NumericColumn) (val : Int), c.presence = Option.none →
      c.fill_null val = .ok c) ∧
    (∀ (c : NumericColumn) (p : BoolTensor) (val : Int),
      c.presence = some p → c.values.shape.length = 1 →
      ∃ c2, c.fill_null val = .ok c2 ∧
        c2.presence = Option.none ∧
        c2.dtype = dtype_from_pytorch_dtype c.values.dtype false ∧
        c2.dtype.nullable = false ∧
        c2.values.shape = c.values.shape ∧
        c2.values.dtype = c.values.dtype ∧
        (∀ (i : Nat) (x : Int) (y : Bool),
          c.values.data[i]? = some x → p.data[i]? = some y →
          c2.values.data[i]? = some (if y then x else val))) := by
  constructor
  · intro c val h
    simp [NumericColumn.fill_null, h]
  · intro c p val hp h1
    refine ⟨⟨dtype_from_pytorch_dtype c.values.dtype false,
      ⟨c.values.dtype, c.values.shape, masked_fill c.values.data p.data val⟩,
      Option.none⟩, ?_, rfl, rfl, dtype_from_pytorch_dtype_nullable _ _, rfl, rfl, ?_⟩
    · simp [NumericColumn.fill_null, hp, NumericColumn.new, h1]
    · intro i x y hx hy
      exact masked_fill_getElem c.values.data p.data val i x y hx hy

/-- Witness for C5: filling `9` into a masked column writes `9` exactly at
the masked position, drops the mask and de-nullablizes the dtype; an
unmasked column comes back unchanged. -/
theorem c5_fill_null_witness :
    (NumericColumn.fill_null ⟨.int64 false, ⟨.int64, [3], [1, 2, 3]⟩,
        Option.none⟩ 9 =
      .ok ⟨.int64 false, ⟨.int64, [3], [1, 2, 3]⟩, Option.none⟩) ∧
    (∃ c2, NumericColumn.fill_null ⟨.int64 true, ⟨.int64, [3], [1, 2, 3]⟩,
        some ⟨[3], [true, false, true]⟩⟩ 9 = .ok c2 ∧
      c2.presence = Option.none ∧
      c2.dtype = .int64 false ∧
      c2.dtype.nullable = false ∧
      c2.values.shape = [3] ∧
      c2.values.dtype = .int64 ∧
      (∀ (i : Nat) (x : Int) (y : Bool),
        ([1, 2, 3] : List Int)[i]? = some x →
        ([true, false, true] : List Bool)[i]? = some y →
        c2.values.data[i]? = some (if y then x else 9))) :=
  ⟨c5_fill_null.1 ⟨.int64 false, ⟨.int64, [3], [1, 2, 3]⟩, Option.none⟩ 9 rfl,
   c5_fill_null.2 ⟨.int64 true, ⟨.int64, [3], [1, 2, 3]⟩,
     some ⟨[3], [true, false, true]⟩⟩ ⟨[3], [true, false, true]⟩ 9 rfl rfl⟩

/-! ## C4: the result mask of binary arithmetic -/

/-- C4, evaluated: with two masks the result mask is their elementwise AND;
with only the right operand masked, and with a masked column against an
unmasked scalar, the single mask is reused verbatim; with no masks the
result is unmasked; but with only the LEFT column operand masked (a
multi-element mask), the truthy-or `presence1 or presence2` calls
`bool(presence1)` and the operation raises the ambiguous-tensor-bool
`RuntimeError` instead of reusing the mask - the failing input of the
claim. -/
theorem c4_presence_evaluation :
    (NumericColumn.add_column
        ⟨.int64 true, ⟨.int64, [2], [1, 2]⟩, some ⟨[2], [true, false]⟩⟩
        ⟨.int64 true, ⟨.int64, [2], [3, 4]⟩, some ⟨[2], [true, true]⟩⟩ =
      .ok ⟨.int64 true, ⟨.int64, [2], [4, 6]⟩, some ⟨[2], [true, false]⟩⟩) ∧
    (NumericColumn.add_column
        ⟨.int64 false, ⟨.int64, [2], [1, 2]⟩, Option.none⟩
        ⟨.int64 true, ⟨.int64, [2], [3, 4]⟩, some ⟨[2], [true, false]⟩⟩ =
      .ok ⟨.int64 true, ⟨.int64, [2], [4, 6]⟩, some ⟨[2], [true, false]⟩⟩) ∧
    (NumericColumn.add_scalar
        ⟨.int64 true, ⟨.int64, [2], [1, 2]⟩, some ⟨[2], [true, false]⟩⟩ 5 =
      .ok ⟨.int64 true, ⟨.int64, [2], [6, 7]⟩, some ⟨[2], [true, false]⟩⟩) ∧
    (NumericColumn.add_column
        ⟨.int64 false, ⟨.int64, [2], [1, 2]⟩, Option.none⟩
        ⟨.int64 false, ⟨.int64, [2], [3, 4]⟩, Option.none⟩ =
      .ok ⟨.int64 false, ⟨.int64, [2], [4, 6]⟩, Option.none⟩) ∧
    (NumericColumn.add_column
        ⟨.int64 true, ⟨.int64, [2], [1, 2]⟩, some ⟨[2], [true, true]⟩⟩
        ⟨.int64 false, ⟨.int64, [2], [3, 4]⟩, Option.none⟩ =
      .error (.ambiguousTensorBool 2)) :=
  ⟨rfl, rfl, rfl, rfl, rfl⟩

/-! ## C8: prefix-based inference -/

/-- The fold loop of `infer_dtype_from_prefix` is the monadic left fold of
its step function. -/
theorem infer_prefix_go_eq_foldlM (ps : List PyValue) : ∀ (d : DType),
    infer_prefix_go d ps = List.foldlM infer_fold_step d ps := by
  induction ps with
  | nil =>
    intro d
    rw [infer_prefix_go]
    rfl
  | cons p ps ih =>
    intro d
    rw [infer_prefix_go]
    exact congrArg (infer_fold_step d p >>= ·) (funext fun d2 => ih d2)

/-- C8: `infer_dtype_from_prefix` returns `Any()` on the empty prefix; on a
non-empty prefix it infers the first element's dtype and folds
`common_dtype` across the inferred dtypes of the rest; each fold step whose
join comes back `None` raises the `ValueError` that names the two
conflicting dtypes; and the spec's concrete examples
(`inferDtypeFromValue(None) == Void()`,
`inferDtypeFromValue([1, 2, 3]) == List(Int64(false))`) hold. -/
theorem c8_prefix_inference :
    infer_dtype_from_prefix ([] : List PyValue) = .ok (.anyT true) ∧
    (∀ (p : PyValue) (ps : List PyValue),
      infer_dtype_from_prefix (p :: ps) =
        (infer_dtype_from_value p) >>=
          (fun d => List.foldlM infer_fold_step d ps)) ∧
    (∀ (dtype : DType) (p : PyValue) (next : DType),
      infer_dtype_from_value p = .ok next →
      common_dtype dtype next = .ok Option.none →
      infer_fold_step dtype p = .error (.cannotInferConflict dtype next)) ∧
    infer_dtype_from_value .none = .ok (.void true) ∧
    infer_dtype_from_value (.pylist [.pyint 1, .pyint 2, .pyint 3]) =
      .ok (.list (.int64 false) false (-1)) := by
  refine ⟨by simp [ infer_dtype_from_prefix], ?_, ?_, by simp [infer_dtype_from_value], ?_⟩
  · intro p ps
    rw [ infer_dtype_from_prefix]
    exact congrArg (infer_dtype_from_value p >>= ·)
      (funext fun d => infer_prefix_go_eq_foldlM ps d)
  · intro dtype p next hnext hnone
    rw [infer_fold_step, hnext]
    show ((common_dtype dtype next) >>= fun u =>
        match u with
        | some d => pure d
        | Option.none => Except.error (.cannotInferConflict dtype next)) =
      Except.error (.cannotInferConflict dtype next)
    rw [hnone]
    rfl
  · simp [infer_dtype_from_value, infer_dtype_from_prefix, infer_prefix_go,
      infer_fold_step, PREFIX_LENGTH]
    rfl

/-- Witness for C8: the fold over `[1, "a"]` starts at `int64`, meets
`string`, finds no common dtype and raises the `ValueError` naming
`int64` and `string`. -/
theorem c8_prefix_inference_witness :
    infer_dtype_from_prefix [.pyint 1, .pystr "a"] =
      .error (.cannotInferConflict int64 string) ∧
    infer_fold_step int64 (.pystr "a") =
      .error (.cannotInferConflict int64 string) := by
  constructor
  · rw [c8_prefix_inference.2.1 (.pyint 1) [.pystr "a"]]
    rw [show infer_dtype_from_value (.pyint 1) = .ok int64 from by
      simp [infer_dtype_from_value]]
    show List.foldlM infer_fold_step int64 [.pystr "a"] =
      .error (.cannotInferConflict int64 string)
    rw [show List.foldlM infer_fold_step int64 [.pystr "a"] =
        (infer_fold_step int64 (.pystr "a")) >>=
          (fun d2 => List.foldlM infer_fold_step d2 []) from rfl]
    rw [c8_prefix_inference.2.2.1 int64 (.pystr "a") string
      (by simp [infer_dtype_from_value]) rfl]
    rfl
  · exact c8_prefix_inference.2.2.1 int64 (.pystr "a") string
      (by simp [infer_dtype_from_value]) rfl

/-! ## C1: commutativity of `common_dtype` -/

/-- Two `common_dtype` outcomes agree in the claim's sense: both succeed
with structurally equal results (a returned `None` counting as a result),
or both raise. -/
def sameOutcome : Except PyError (Option DType) → Except PyError (Option DType) → Prop
  | .ok u, .ok v => u = v
  | .error _, .error _ => True
  | _, _ => False

/-- `sameOutcome`, for the field lists joined inside the tuple branch. -/
def sameOutcomeFields :
    Except PyError (Option DTypeList) → Except PyError (Option DTypeList) → Prop
  | .ok u, .ok v => u = v
  | .error _, .error _ => True
  | _, _ => False

mutual

/-- The pairs of `DType`s on which `common_dtype` commutes.  It excludes
exactly the two asymmetric configurations (recursively, at the positions
the join recurses into): two `Any`s with different `nullable` flags, where
`common_dtype` returns its second argument; and two `Struct`s agreeing on
`fields` and `nullable` but differing in `is_dataframe` or `metadata`,
where the final branch returns one operand whole. -/
def goodPair : DType → DType → Bool
  | .anyT x, .anyT y => decide (x = y)
  | .struct f na da ma, .struct g nb db mb =>
    decide ((f = g ∧ na = nb) → (da = db ∧ ma = mb))
  | .tuple fs _ _ _, .tuple gs _ _ _ => goodFields fs gs
  | .map ka ia _ _, .map kb ib _ _ => goodPair ka kb && goodPair ia ib
  | .list ia _ _, .list ib _ _ => goodPair ia ib
  | _, _ => true

/-- `goodPair` at every corresponding position of two field lists. -/
def goodFields : DTypeList → DTypeList → Bool
  | .cons x xs, .cons y ys => goodPair x y && goodFields xs ys
  | _, _ => true

end

/-- A numeric tag distinguishing the 14 `DType` constructors. -/
def DType.ctor_tag : DType → Nat
  | .void _ => 0
  | .boolean _ => 1
  | .int8 _ => 2
  | .int16 _ => 3
  | .int32 _ => 4
  | .int64 _ => 5
  | .float32 _ => 6
  | .float64 _ => 7
  | .string _ => 8
  | .map _ _ _ _ => 9
  | .list _ _ _ => 10
  | .struct _ _ _ _ => 11
  | .tuple _ _ _ _ => 12
  | .anyT _ => 13

/-- `sameOutcome` is reflexive. -/
theorem sameOutcome_refl (x : Except PyError (Option DType)) : sameOutcome x x := by
  cases x <;> simp [sameOutcome]

/-- `sameOutcome` is symmetric. -/
theorem sameOutcome_symm (x y : Except PyError (Option DType))
    (h : sameOutcome x y) : sameOutcome y x := by
  cases x <;> cases y <;> simp_all [sameOutcome, eq_comm]

/-- Equal outcomes agree. -/
theorem sameOutcome_of_eq {x y : Except PyError (Option DType)} (h : x = y) :
    sameOutcome x y := h ▸ sameOutcome_refl x

/-- A successful `with_null` never changes the variant of a `DType`. -/
theorem with_null_tag (l : DType) (b : Bool) (w : DType)
    (h : l.with_null b = .ok w) : w.ctor_tag = l.ctor_tag := by
  cases l <;> simp only [DType.with_null, Struct_new] at h
  all_goals try (cases h; rfl)
  case anyT x =>
    split at h
    · cases h; rfl
    · cases h
  case struct fs n d m =>
    split at h
    · split at h
      · cases h
      · cases h; rfl
    · cases h; rfl

/-- A successful `Struct` construction returns exactly the struct it was
asked for. -/
theorem struct_new_ok (fs : FieldList) (b d : Bool) (m : Option MetaData)
    (w : DType) (h : Struct_new fs b d m = .ok w) : w = .struct fs b d m := by
  unfold Struct_new at h
  split at h
  · split at h
    · cases h
    · cases h; rfl
  · cases h; rfl

/-- The final branch of `common_dtype` commutes whenever its only
asymmetric configuration - both `with_null(True)` calls succeeding with the
same value while the operands share a `nullable` flag but differ - is ruled
out. -/
theorem final_branch_comm (l r : DType)
    (h : ∀ w, l.with_null true = .ok w → r.with_null true = .ok w →
      l.nullable = r.nullable → l = r) :
    sameOutcome (final_branch l r) (final_branch r l) := by
  rcases hl : l.with_null true with e | lw <;> rcases hr : r.with_null true with e2 | rw <;>
    unfold final_branch <;> rw [hl, hr] <;> try simp [sameOutcome]
  by_cases heq : lw = rw
  · subst heq
    simp only [if_pos rfl]
    cases hn1 : l.nullable <;> cases hn2 : r.nullable <;>
      simp [sameOutcome, hn1, hn2]
    · exact (h lw hl hr (hn1.trans hn2.symm)).symm
    · exact h lw hl hr (hn1.trans hn2.symm)
  · rw [if_neg heq, if_neg (fun hh => heq hh.symm)]

/-- The final branch commutes outright on operands of different variants. -/
theorem final_comm_of_ne_tag (l r : DType) (hne : l.ctor_tag ≠ r.ctor_tag) :
    sameOutcome (final_branch l r) (final_branch r l) := by
  apply final_branch_comm
  intro w hl hr _
  exact absurd ((with_null_tag l true w hl).symm.trans (with_null_tag r true w hr)) hne

/-- `promote` is commutative (on non-boolean/numeric operands both orders
hit the same failing assert). -/
theorem promote_comm (l r : DType) : promote l r = promote r l := by
  cases l <;> cases r <;> try rfl
  all_goals (rename_i a b; cases a <;> cases b <;> rfl)

/-- `common_dtype` with `Void` on the left agrees with the swapped call:
both orders evaluate the other operand's `with_null()`. -/
theorem comm_void_left (x : Bool) (b : DType) :
    sameOutcome (common_dtype (.void x) b) (common_dtype b (.void x)) := by
  cases b <;> exact sameOutcome_refl _

/-- `common_dtype` with `Any` on the left agrees with the swapped call on
every `goodPair` partner: both orders return the non-`Any` operand (or, for
two equal `Any`s, that `Any`). -/
theorem comm_any_left (x : Bool) (b : DType)
    (h : goodPair (.anyT x) b = true) :
    sameOutcome (common_dtype (.anyT x) b) (common_dtype b (.anyT x)) := by
  cases b <;> try exact sameOutcome_refl _
  rename_i y
  have hxy : x = y := of_decide_eq_true h
  subst hxy
  exact sameOutcome_refl _

/-- `common_dtype` on two structs (which lands in the final branch)
commutes on every `goodPair` pair of structs. -/
theorem comm_struct_struct (f g : FieldList) (na da nb db : Bool)
    (ma mb : Option MetaData)
    (h : goodPair (.struct f na da ma) (.struct g nb db mb) = true) :
    sameOutcome (common_dtype (.struct f na da ma) (.struct g nb db mb))
      (common_dtype (.struct g nb db mb) (.struct f na da ma)) := by
  have hg : (f = g ∧ na = nb) → (da = db ∧ ma = mb) := of_decide_eq_true h
  have main : sameOutcome
      (final_branch (.struct f na da ma) (.struct g nb db mb))
      (final_branch (.struct g nb db mb) (.struct f na da ma)) := by
    apply final_branch_comm
    intro w hl hr hn
    have hw1 : w = .struct f true false Option.none :=
      struct_new_ok f true false Option.none w hl
    have hw2 : w = .struct g true false Option.none :=
      struct_new_ok g true false Option.none w hr
    have hfg : f = g := by
      have := hw1.symm.trans hw2
      rw [DType.struct.injEq] at this
      exact this.1
    have hnn : na = nb := hn
    obtain ⟨hd, hm⟩ := hg ⟨hfg, hnn⟩
    rw [hfg, hnn, hd, hm]
  exact main

/-- `common_dtype` with `Void` on the right agrees with the swapped call. -/
theorem comm_void_right (y : Bool) (a : DType) :
    sameOutcome (common_dtype a (.void y)) (common_dtype (.void y) a) := by
  cases a <;> exact sameOutcome_refl _

/-- `common_dtype` with `Any` on the right agrees with the swapped call on
every `goodPair` partner. -/
theorem comm_any_right (y : Bool) (a : DType)
    (h : goodPair a (.anyT y) = true) :
    sameOutcome (common_dtype a (.anyT y)) (common_dtype (.anyT y) a) := by
  cases a <;> try exact sameOutcome_refl _
  rename_i x
  have hxy : x = y := of_decide_eq_true h
  subst hxy
  exact sameOutcome_refl _

/-- `common_dtype` between a `Struct` and a non-`Struct` (other than `Void`
and `Any`) commutes: both orders land in the final branch, whose rebuilt
`with_null` values can never coincide across different variants. -/
theorem comm_struct_left (f : FieldList) (n d : Bool) (m : Option MetaData)
    (b : DType) (hb1 : is_struct b = false) (hb2 : is_void b = false)
    (hb3 : is_any b = false) :
    sameOutcome (common_dtype (.struct f n d m) b)
      (common_dtype b (.struct f n d m)) := by
  cases b with
  | void y => simp at hb2
  | anyT y => simp at hb3
  | struct g n2 d2 m2 => simp at hb1
  | boolean x =>
    exact final_comm_of_ne_tag (.struct f n d m) (.boolean x) (by simp [DType.ctor_tag])
  | int8 x =>
    exact final_comm_of_ne_tag (.struct f n d m) (.int8 x) (by simp [DType.ctor_tag])
  | int16 x =>
    exact final_comm_of_ne_tag (.struct f n d m) (.int16 x) (by simp [DType.ctor_tag])
  | int32 x =>
    exact final_comm_of_ne_tag (.struct f n d m) (.int32 x) (by simp [DType.ctor_tag])
  | int64 x =>
    exact final_comm_of_ne_tag (.struct f n d m) (.int64 x) (by simp [DType.ctor_tag])
  | float32 x =>
    exact final_comm_of_ne_tag (.struct f n d m) (.float32 x) (by simp [DType.ctor_tag])
  | float64 x =>
    exact final_comm_of_ne_tag (.struct f n d m) (.float64 x) (by simp [DType.ctor_tag])
  | string x =>
    exact final_comm_of_ne_tag (.struct f n d m) (.string x) (by simp [DType.ctor_tag])
  | map k i x s =>
    exact final_comm_of_ne_tag (.struct f n d m) (.map k i x s) (by simp [DType.ctor_tag])
  | list i x fx =>
    exact final_comm_of_ne_tag (.struct f n d m) (.list i x fx) (by simp [DType.ctor_tag])
  | tuple g x dd mm =>
    exact final_comm_of_ne_tag (.struct f n d m) (.tuple g x dd mm) (by simp [DType.ctor_tag])

/-- The mirror image of `comm_struct_left`. -/
theorem comm_struct_right (f : FieldList) (n d : Bool) (m : Option MetaData)
    (b : DType) (hb1 : is_struct b = false) (hb2 : is_void b = false)
    (hb3 : is_any b = false) :
    sameOutcome (common_dtype b (.struct f n d m))
      (common_dtype (.struct f n d m) b) :=
  sameOutcome_symm _ _ (comm_struct_left f n d m b hb1 hb2 hb3)

/-- `common_dtype` on two `Tuple` dtypes, unfolded one step: with equal
arity the field lists are joined pairwise and the tuple rebuilt via
`Tuple(res).with_null(...)`; with unequal arity the call falls through to
the final branch. -/
theorem common_dtype_tuple_branch (fs gs : DTypeList) (nl dl nr dr : Bool)
    (ml mr : Option MetaData) :
    common_dtype (.tuple fs nl dl ml) (.tuple gs nr dr mr) =
      if (fs.length == gs.length) = true then
        (match common_fields fs gs with
         | .error e => .error e
         | .ok Option.none => .ok Option.none
         | .ok (some res) => .ok (some (.tuple res (nl || nr) false Option.none)))
      else final_branch (.tuple fs nl dl ml) (.tuple gs nr dr mr) := rfl

/-- `common_fields` on two non-empty field lists, unfolded one step. -/
theorem common_fields_cons (x y : DType) (xs ys : DTypeList) :
    common_fields (.cons x xs) (.cons y ys) =
      (match common_dtype x y with
       | .error e => .error e
       | .ok Option.none => .ok Option.none
       | .ok (some m) =>
         match common_fields xs ys with
         | .error e => .error e
         | .ok Option.none => .ok Option.none
         | .ok (some res) => .ok (some (.cons m res))) := rfl

mutual

/-- On every `goodPair`, `common_dtype` commutes: the two orders both raise,
or both return structurally equal results. -/
theorem common_dtype_comm_aux (a b : DType) (h : goodPair a b = true) :
    sameOutcome (common_dtype a b) (common_dtype b a) := by
  cases a with
  | void x => exact comm_void_left x b
  | anyT x => exact comm_any_left x b h
  | boolean x =>
    cases b with
    | void y => exact comm_void_right y (.boolean x)
    | anyT y => exact comm_any_right y (.boolean x) h
    | struct g gn gd gm => exact comm_struct_right g gn gd gm (.boolean x) rfl rfl rfl
    | boolean y => cases x <;> cases y <;> exact sameOutcome_refl _
    | int8 y => cases x <;> cases y <;> exact sameOutcome_refl _
    | int16 y => cases x <;> cases y <;> exact sameOutcome_refl _
    | int32 y => cases x <;> cases y <;> exact sameOutcome_refl _
    | int64 y => cases x <;> cases y <;> exact sameOutcome_refl _
    | float32 y => cases x <;> cases y <;> exact sameOutcome_refl _
    | float64 y => cases x <;> cases y <;> exact sameOutcome_refl _
    | string y => exact sameOutcome_refl _
    | map k i y s => exact sameOutcome_refl _
    | list i y fz => exact sameOutcome_refl _
    | tuple g y gd gm => exact sameOutcome_refl _
  | int8 x =>
    cases b with
    | void y => exact comm_void_right y (.int8 x)
    | anyT y => exact comm_any_right y (.int8 x) h
    | struct g gn gd gm => exact comm_struct_right g gn gd gm (.int8 x) rfl rfl rfl
    | boolean y => cases x <;> cases y <;> exact sameOutcome_refl _
    | int8 y => cases x <;> cases y <;> exact sameOutcome_refl _
    | int16 y => cases x <;> cases y <;> exact sameOutcome_refl _
    | int32 y => cases x <;> cases y <;> exact sameOutcome_refl _
    | int64 y => cases x <;> cases y <;> exact sameOutcome_refl _
    | float32 y => cases x <;> cases y <;> exact sameOutcome_refl _
    | float64 y => cases x <;> cases y <;> exact sameOutcome_refl _
    | string y => exact sameOutcome_refl _
    | map k i y s => exact sameOutcome_refl _
    | list i y fz => exact sameOutcome_refl _
    | tuple g y gd gm => exact sameOutcome_refl _
  | int16 x =>
    cases b with
    | void y => exact comm_void_right y (.int16 x)
    | anyT y => exact comm_any_right y (.int16 x) h
    | struct g gn gd gm => exact comm_struct_right g gn gd gm (.int16 x) rfl rfl rfl
    | boolean y => cases x <;> cases y <;> exact sameOutcome_refl _
    | int8 y => cases x <;> cases y <;> exact sameOutcome_refl _
    | int16 y => cases x <;> cases y <;> exact sameOutcome_refl _
    | int32 y => cases x <;> cases y <;> exact sameOutcome_refl _
    | int64 y => cases x <;> cases y <;> exact sameOutcome_refl _
    | float32 y => cases x <;> cases y <;> exact sameOutcome_refl _
    | float64 y => cases x <;> cases y <;> exact sameOutcome_refl _
    | string y => exact sameOutcome_refl _
    | map k i y s => exact sameOutcome_refl _
    | list i y fz => exact sameOutcome_refl _
    | tuple g y gd gm => exact sameOutcome_refl _
  | int32 x =>
    cases b with
    | void y => exact comm_void_right y (.int32 x)
    | anyT y => exact comm_any_right y (.int32 x) h
    | struct g gn gd gm => exact comm_struct_right g gn gd gm (.int32 x) rfl rfl rfl
    | boolean y => cases x <;> cases y <;> exact sameOutcome_refl _
    | int8 y => cases x <;> cases y <;> exact sameOutcome_refl _
    | int16 y => cases x <;> cases y <;> exact sameOutcome_refl _
    | int32 y => cases x <;> cases y <;> exact sameOutcome_refl _
    | int64 y => cases x <;> cases y <;> exact sameOutcome_refl _
    | float32 y => cases x <;> cases y <;> exact sameOutcome_refl _
    | float64 y => cases x <;> cases y <;> exact sameOutcome_refl _
    | string y => exact sameOutcome_refl _
    | map k i y s => exact sameOutcome_refl _
    | list i y fz => exact sameOutcome_refl _
    | tuple g y gd gm => exact sameOutcome_refl _
  | int64 x =>
    cases b with
    | void y => exact comm_void_right y (.int64 x)
    | anyT y => exact comm_any_right y (.int64 x) h
    | struct g gn gd gm => exact comm_struct_right g gn gd gm (.int64 x) rfl rfl rfl
    | boolean y => cases x <;> cases y <;> exact sameOutcome_refl _
    | int8 y => cases x <;> cases y <;> exact sameOutcome_refl _
    | int16 y => cases x <;> cases y <;> exact sameOutcome_refl _
    | int32 y => cases x <;> cases y <;> exact sameOutcome_refl _
    | int64 y => cases x <;> cases y <;> exact sameOutcome_refl _
    | float32 y => cases x <;> cases y <;> exact sameOutcome_refl _
    | float64 y => cases x <;> cases y <;> exact sameOutcome_refl _
    | string y => exact sameOutcome_refl _
    | map k i y s => exact sameOutcome_refl _
    | list i y fz => exact sameOutcome_refl _
    | tuple g y gd gm => exact sameOutcome_refl _
  | float32 x =>
    cases b with
    | void y => exact comm_void_right y (.float32 x)
    | anyT y => exact comm_any_right y (.float32 x) h
    | struct g gn gd gm => exact comm_struct_right g gn gd gm (.float32 x) rfl rfl rfl
    | boolean y => cases x <;> cases y <;> exact sameOutcome_refl _
    | int8 y => cases x <;> cases y <;> exact sameOutcome_refl _
    | int16 y => cases x <;> cases y <;> exact sameOutcome_refl _
    | int32 y => cases x <;> cases y <;> exact sameOutcome_refl _
    | int64 y => cases x <;> cases y <;> exact sameOutcome_refl _
    | float32 y => cases x <;> cases y <;> exact sameOutcome_refl _
    | float64 y => cases x <;> cases y <;> exact sameOutcome_refl _
    | string y => exact sameOutcome_refl _
    | map k i y s => exact sameOutcome_refl _
    | list i y fz => exact sameOutcome_refl _
    | tuple g y gd gm => exact sameOutcome_refl _
  | float64 x =>
    cases b with
    | void y => exact comm_void_right y (.float64 x)
    | anyT y => exact comm_any_right y (.float64 x) h
    | struct g gn gd gm => exact comm_struct_right g gn gd gm (.float64 x) rfl rfl rfl
    | boolean y => cases x <;> cases y <;> exact sameOutcome_refl _
    | int8 y => cases x <;> cases y <;> exact sameOutcome_refl _
    | int16 y => cases x <;> cases y <;> exact sameOutcome_refl _
    | int32 y => cases x <;> cases y <;> exact sameOutcome_refl _
    | int64 y => cases x <;> cases y <;> exact sameOutcome_refl _
    | float32 y => cases x <;> cases y <;> exact sameOutcome_refl _
    | float64 y => cases x <;> cases y <;> exact sameOutcome_refl _
    | string y => exact sameOutcome_refl _
    | map k i y s => exact sameOutcome_refl _
    | list i y fz => exact sameOutcome_refl _
    | tuple g y gd gm => exact sameOutcome_refl _
  | string x =>
    cases b with
    | void y => exact comm_void_right y (.string x)
    | anyT y => exact comm_any_right y (.string x) h
    | struct g gn gd gm => exact comm_struct_right g gn gd gm (.string x) rfl rfl rfl
    | boolean y => exact sameOutcome_refl _
    | int8 y => exact sameOutcome_refl _
    | int16 y => exact sameOutcome_refl _
    | int32 y => exact sameOutcome_refl _
    | int64 y => exact sameOutcome_refl _
    | float32 y => exact sameOutcome_refl _
    | float64 y => exact sameOutcome_refl _
    | string y => cases x <;> cases y <;> exact sameOutcome_refl _
    | map k i y s => exact sameOutcome_refl _
    | list i y fz => exact sameOutcome_refl _
    | tuple g y gd gm => exact sameOutcome_refl _
  | map ka ia na sa =>
    cases b with
    | void y => exact comm_void_right y (.map ka ia na sa)
    | anyT y => exact comm_any_right y (.map ka ia na sa) h
    | struct g gn gd gm => exact comm_struct_right g gn gd gm (.map ka ia na sa) rfl rfl rfl
    | boolean y => exact sameOutcome_refl _
    | int8 y => exact sameOutcome_refl _
    | int16 y => exact sameOutcome_refl _
    | int32 y => exact sameOutcome_refl _
    | int64 y => exact sameOutcome_refl _
    | float32 y => exact sameOutcome_refl _
    | float64 y => exact sameOutcome_refl _
    | string y => exact sameOutcome_refl _
    | list i y fz => exact sameOutcome_refl _
    | tuple g y gd gm => exact sameOutcome_refl _
    | map kb ib nb sb =>
      have hp : (goodPair ka kb && goodPair ia ib) = true := h
      rw [Bool.and_eq_true] at hp
      obtain ⟨h1, h2⟩ := hp
      have IH1 := common_dtype_comm_aux ka kb h1
      have IH2 := common_dtype_comm_aux ia ib h2
      rw [common_dtype_map_branch, common_dtype_map_branch]
      rcases e1 : common_dtype ka kb with eA | kA <;>
        rcases e2 : common_dtype kb ka with eB | kB <;>
        rw [e1, e2] at IH1
      · trivial
      · exact (IH1 : False).elim
      · exact (IH1 : False).elim
      · have hk : kA = kB := IH1
        subst hk
        rcases e3 : common_dtype ia ib with eC | iA <;>
          rcases e4 : common_dtype ib ia with eD | iB <;>
          rw [e3, e4] at IH2
        · trivial
        · exact (IH2 : False).elim
        · exact (IH2 : False).elim
        · have hi : iA = iB := IH2
          subst hi
          rcases kA with _ | k <;> rcases iA with _ | i
          · exact sameOutcome_refl _
          · exact sameOutcome_refl _
          · exact sameOutcome_refl _
          · exact congrArg (fun z => Option.some (DType.map k i z false))
              (Bool.or_comm na nb)
  | list ia na fa =>
    cases b with
    | void y => exact comm_void_right y (.list ia na fa)
    | anyT y => exact comm_any_right y (.list ia na fa) h
    | struct g gn gd gm => exact comm_struct_right g gn gd gm (.list ia na fa) rfl rfl rfl
    | boolean y => exact sameOutcome_refl _
    | int8 y => exact sameOutcome_refl _
    | int16 y => exact sameOutcome_refl _
    | int32 y => exact sameOutcome_refl _
    | int64 y => exact sameOutcome_refl _
    | float32 y => exact sameOutcome_refl _
    | float64 y => exact sameOutcome_refl _
    | string y => exact sameOutcome_refl _
    | map k i y s => exact sameOutcome_refl _
    | tuple g y gd gm => exact sameOutcome_refl _
    | list ib nb fb =>
      have h1 : goodPair ia ib = true := h
      have IH := common_dtype_comm_aux ia ib h1
      rw [common_dtype_list_branch, common_dtype_list_branch]
      rcases e1 : common_dtype ia ib with eA | oA <;>
        rcases e2 : common_dtype ib ia with eB | oB <;>
        rw [e1, e2] at IH
      · trivial
      · exact (IH : False).elim
      · exact (IH : False).elim
      · have ho : oA = oB := IH
        subst ho
        rcases oA with _ | k
        · exact sameOutcome_refl _
        · exact congrArg (fun z => Option.some (DType.list k z (-1)))
            (Bool.or_comm na nb)
  | struct f n d m =>
    cases b with
    | void y => exact comm_void_right y (.struct f n d m)
    | anyT y => exact comm_any_right y (.struct f n d m) h
    | struct g gn gd gm => exact comm_struct_struct f g n d gn gd m gm h
    | boolean y => exact comm_struct_left f n d m (.boolean y) rfl rfl rfl
    | int8 y => exact comm_struct_left f n d m (.int8 y) rfl rfl rfl
    | int16 y => exact comm_struct_left f n d m (.int16 y) rfl rfl rfl
    | int32 y => exact comm_struct_left f n d m (.int32 y) rfl rfl rfl
    | int64 y => exact comm_struct_left f n d m (.int64 y) rfl rfl rfl
    | float32 y => exact comm_struct_left f n d m (.float32 y) rfl rfl rfl
    | float64 y => exact comm_struct_left f n d m (.float64 y) rfl rfl rfl
    | string y => exact comm_struct_left f n d m (.string y) rfl rfl rfl
    | map k i y s => exact comm_struct_left f n d m (.map k i y s) rfl rfl rfl
    | list i y fz => exact comm_struct_left f n d m (.list i y fz) rfl rfl rfl
    | tuple g y gd gm => exact comm_struct_left f n d m (.tuple g y gd gm) rfl rfl rfl
  | tuple fs nl dl ml =>
    cases b with
    | void y => exact comm_void_right y (.tuple fs nl dl ml)
    | anyT y => exact comm_any_right y (.tuple fs nl dl ml) h
    | struct g gn gd gm => exact comm_struct_right g gn gd gm (.tuple fs nl dl ml) rfl rfl rfl
    | boolean y => exact sameOutcome_refl _
    | int8 y => exact sameOutcome_refl _
    | int16 y => exact sameOutcome_refl _
    | int32 y => exact sameOutcome_refl _
    | int64 y => exact sameOutcome_refl _
    | float32 y => exact sameOutcome_refl _
    | float64 y => exact sameOutcome_refl _
    | string y => exact sameOutcome_refl _
    | map k i y s => exact sameOutcome_refl _
    | list i y fz => exact sameOutcome_refl _
    | tuple gs nr dr mr =>
      have hgf : goodFields fs gs = true := h
      rw [common_dtype_tuple_branch, common_dtype_tuple_branch]
      by_cases harr : fs.length = gs.length
      · rw [if_pos (show (fs.length == gs.length) = true from by simp [harr]),
          if_pos (show (gs.length == fs.length) = true from by simp [harr])]
        have IHf := common_fields_comm_aux fs gs hgf
        rcases e1 : common_fields fs gs with eA | oA <;>
          rcases e2 : common_fields gs fs with eB | oB <;>
          rw [e1, e2] at IHf
        · trivial
        · exact (IHf : False).elim
        · exact (IHf : False).elim
        · have ho : oA = oB := IHf
          subst ho
          rcases oA with _ | res
          · exact sameOutcome_refl _
          · exact congrArg
              (fun z => Option.some (DType.tuple res z false Option.none))
              (Bool.or_comm nl nr)
      · rw [if_neg (show ¬((fs.length == gs.length) = true) from by
            simp [harr]),
          if_neg (show ¬((gs.length == fs.length) = true) from by
            simp only [beq_iff_eq]
            exact fun hh => harr hh.symm)]
        refine final_branch_comm _ _ ?_
        intro w hw1 hw2 hn
        injection hw1 with hh1
        injection hw2 with hh2
        have hts : DType.tuple fs true false Option.none =
            .tuple gs true false Option.none := hh1.trans hh2.symm
        rw [DType.tuple.injEq] at hts
        exact absurd (congrArg DTypeList.length hts.1) harr

/-- On lists of `goodPair` fields, the pairwise `common_fields` join
commutes. -/
theorem common_fields_comm_aux (xs ys : DTypeList)
    (h : goodFields xs ys = true) :
    sameOutcomeFields (common_fields xs ys) (common_fields ys xs) := by
  cases xs with
  | nil =>
    cases ys with
    | nil => exact rfl
    | cons y ys2 => exact rfl
  | cons x xs2 =>
    cases ys with
    | nil => exact rfl
    | cons y ys2 =>
      have hp : (goodPair x y && goodFields xs2 ys2) = true := h
      rw [Bool.and_eq_true] at hp
      obtain ⟨h1, h2⟩ := hp
      have IH1 := common_dtype_comm_aux x y h1
      have IH2 := common_fields_comm_aux xs2 ys2 h2
      rw [common_fields_cons, common_fields_cons]
      rcases e1 : common_dtype x y with eA | oA <;>
        rcases e2 : common_dtype y x with eB | oB <;>
        rw [e1, e2] at IH1
      · trivial
      · exact (IH1 : False).elim
      · exact (IH1 : False).elim
      · have ho : oA = oB := IH1
        subst ho
        rcases oA with _ | m
        · exact rfl
        · rcases e3 : common_fields xs2 ys2 with eC | oC <;>
            rcases e4 : common_fields ys2 xs2 with eD | oD <;>
            rw [e3, e4] at IH2
          · trivial
          · exact (IH2 : False).elim
          · exact (IH2 : False).elim
          · have ho2 : oC = oD := IH2
            subst ho2
            rcases oC with _ | res
            · exact rfl
            · exact rfl

end

/-- C1 counterexample: two perfectly constructible `Struct` values that
agree on `fields` and `nullable` but differ in `is_dataframe` break
commutativity - `Struct.constructor` drops `is_dataframe`, so both
`with_null()` results coincide and the final branch hands back the second
operand whole in one order and the first in the other. -/
theorem c1_commutativity_counterexample :
    common_dtype
        (.struct (.cons (.mk "x" (.int8 true) Option.none) .nil) false true Option.none)
        (.struct (.cons (.mk "x" (.int8 true) Option.none) .nil) false false Option.none) =
      .ok (some (.struct (.cons (.mk "x" (.int8 true) Option.none) .nil) false false Option.none)) ∧
    common_dtype
        (.struct (.cons (.mk "x" (.int8 true) Option.none) .nil) false false Option.none)
        (.struct (.cons (.mk "x" (.int8 true) Option.none) .nil) false true Option.none) =
      .ok (some (.struct (.cons (.mk "x" (.int8 true) Option.none) .nil) false true Option.none)) ∧
    (DType.struct (.cons (.mk "x" (.int8 true) Option.none) .nil) false false Option.none) ≠
      (.struct (.cons (.mk "x" (.int8 true) Option.none) .nil) false true Option.none) := by
  refine ⟨rfl, rfl, ?_⟩
  decide

/-- C1 as amended: `common_dtype(a, b)` and `common_dtype(b, a)` raise
together and otherwise return structurally equal results (a `None`
"no common type" answer included) for every pair of `DType`s except the
two asymmetric configurations excluded by `goodPair`: two `Any`s with
different `nullable` flags, and two `Struct`s agreeing on `fields` and
`nullable` but differing in `is_dataframe` or `metadata` (also nested at
positions the join recurses into). -/
theorem c1_common_dtype_commutative_amended (a b : DType)
    (h : goodPair a b = true) :
    sameOutcome (common_dtype a b) (common_dtype b a) :=
  common_dtype_comm_aux a b h

/-- Witness for C1 (amended) on two list dtypes with different auxiliary
flags. -/
theorem c1_common_dtype_commutative_amended_witness :
    goodPair (.list (.int64 false) false 3) (.list (.int64 true) true (-1)) = true ∧
    sameOutcome
      (common_dtype (.list (.int64 false) false 3) (.list (.int64 true) true (-1)))
      (common_dtype (.list (.int64 true) true (-1)) (.list (.int64 false) false 3)) :=
  ⟨rfl, c1_common_dtype_commutative_amended _ _ rfl⟩

end Ax
